import Mathlib

/-!
Shallow embedding of `my_agent.py` (module `my_agent`) from the repository
`2509-progate-aws-hackathon/strandsagents`, together with theorems settling
the specification claims about it.

Modelling conventions, used throughout:

* Python `str` is modelled as Lean `String` / `List Char` (Unicode scalar
  values, as in CPython).
* Python `float` values arising here come only from `float(...)` applied to
  decimal literals captured by regexes, and from backend relevance scores;
  they are modelled as exact rationals `ℚ`.  (No claim depends on binary64
  rounding.)
* Python regex searches (`re.search`) are modelled by dedicated functions,
  one per pattern, implementing the leftmost-start, backtracking,
  first-match semantics of the `re` module for exactly the constructs each
  pattern uses.  Each function is documented with the pattern it embeds.
* `\d` and `str.isspace`-style character classes are modelled on the ASCII
  range (the data format of the repository only uses ASCII digits and
  whitespace); case-insensitivity (`re.IGNORECASE`) is modelled by ASCII
  lowercasing, which is exact for the only cased label, `"title"`.
* The two external AWS backends (knowledge-base retrieval and model
  invocation) are external collaborators: their outcomes are parameters of
  the functions that call them.  An exception raised by a backend call is
  one of the outcome constructors.
-/

namespace MyAgent

/-- Whitespace as stripped by Python `str.strip()` / `float()`, modelled on
the ASCII range (space, tab, newline, carriage return, vertical tab,
form feed). -/
def pySpace (c : Char) : Bool :=
  c == ' ' || c == '\t' || c == '\n' || c == '\r' || c == '\x0b' || c == '\x0c'

/-- Strip leading and trailing whitespace, as Python `str.strip()`. -/
def stripWs (cs : List Char) : List Char :=
  ((cs.dropWhile pySpace).reverse.dropWhile pySpace).reverse

/-- Python `str.strip()` on `String`. -/
def pyStripS (s : String) : String :=
  (stripWs s.data).asString

/-- Value of a list of ASCII digit characters read in base 10. -/
def digitsToNat (ds : List Char) : Nat :=
  ds.foldl (fun n c => 10 * n + (c.toNat - 48)) 0

/-- Exponent suffix of a Python float literal: either nothing, or
`e`/`E`, an optional sign and a nonempty digit run, consuming the whole
remaining input.  Returns the exponent. -/
def pyExpDigits (r : List Char) : Option ℤ :=
  match r with
  | '-' :: r2 =>
    if (r2.takeWhile Char.isDigit).isEmpty then none
    else if (r2.dropWhile Char.isDigit).isEmpty then some (-(digitsToNat (r2.takeWhile Char.isDigit) : ℤ))
    else none
  | '+' :: r2 =>
    if (r2.takeWhile Char.isDigit).isEmpty then none
    else if (r2.dropWhile Char.isDigit).isEmpty then some (digitsToNat (r2.takeWhile Char.isDigit) : ℤ)
    else none
  | _ =>
    if (r.takeWhile Char.isDigit).isEmpty then none
    else if (r.dropWhile Char.isDigit).isEmpty then some (digitsToNat (r.takeWhile Char.isDigit) : ℤ)
    else none

/-- Optional exponent part of a Python float literal. -/
def pyExpPart : List Char → Option ℤ
  | [] => some 0
  | 'e' :: r => pyExpDigits r
  | 'E' :: r => pyExpDigits r
  | _ => none

/-- The exact rational `(n / d) * 10 ^ e`, built with `mkRat` so that the
float model stays in the efficiently computable core fragment of `ℚ`. -/
def ratTimesPow10 (n d : Nat) (e : ℤ) : ℚ :=
  match e with
  | Int.ofNat k => mkRat (n * 10 ^ k) d
  | Int.negSucc k => mkRat n (d * 10 ^ (k + 1))

/-- Unsigned mantissa (with optional exponent) of a Python float literal:
`digits`, `digits.digits*`, or `.digits`, optionally followed by an
exponent part.  The value is `(intpart.fracpart) * 10 ^ exponent`. -/
def pyFloatMag (cs : List Char) : Option ℚ :=
  match cs.dropWhile Char.isDigit with
  | '.' :: r =>
    if (cs.takeWhile Char.isDigit).isEmpty && (r.takeWhile Char.isDigit).isEmpty then none
    else (pyExpPart (r.dropWhile Char.isDigit)).map fun e =>
      ratTimesPow10
        (digitsToNat (cs.takeWhile Char.isDigit) * 10 ^ (r.takeWhile Char.isDigit).length
            + digitsToNat (r.takeWhile Char.isDigit))
        (10 ^ (r.takeWhile Char.isDigit).length) e
  | rest =>
    if (cs.takeWhile Char.isDigit).isEmpty then none
    else (pyExpPart rest).map fun e =>
      ratTimesPow10 (digitsToNat (cs.takeWhile Char.isDigit)) 1 e

/-- Python `float(s)` on decimal literals: optional surrounding whitespace,
optional sign, decimal mantissa, optional exponent.  `none` models a
`ValueError`.  (The special forms `inf`/`nan` and digit-group underscores
are modelled as failures; no such string reaches `float` in this program,
because every argument of `float` here is a regex capture of the shape
`[-]?\d+\.?\d*`.) -/
def pyFloat (s : String) : Option ℚ :=
  match stripWs s.data with
  | '-' :: r => (pyFloatMag r).map fun q => -q
  | '+' :: r => pyFloatMag r
  | cs => pyFloatMag cs

/-! ### The coordinate regex

`re.search(r'[^,]+,[^,]+,[^,]+,([-]?\d+\.?\d*),([-]?\d+\.?\d*)', text)`
(`my_agent.py` line 75).

At a fixed start position the pattern is deterministic:

* `[^,]+,` can only match a nonempty run of non-comma characters up to and
  including the next comma (greedy matching with backtracking admits no
  other decomposition, since `[^,]` never matches a comma);
* `([-]?\d+\.?\d*)` followed by `,` matches an optional `-`, the maximal
  digit run, optionally a `.` and the maximal following digit run, and
  requires the next character to be a comma (backtracking into the digit
  runs cannot produce a comma earlier, all skipped characters being
  digits or the dot);
* the final `([-]?\d+\.?\d*)` matches an optional `-`, the maximal digit
  run, and, if a `.` follows, the `.` and the maximal following digit run.

`re.search` then takes the smallest start position at which this succeeds.
-/

/-- One `[^,]+,` unit: nonempty non-comma run, then the comma; returns the
rest after the comma. -/
def field (cs : List Char) : Option (List Char) :=
  if (cs.takeWhile (fun c => !(c == ','))).isEmpty then none
  else
    match cs.dropWhile (fun c => !(c == ',')) with
    | ',' :: rest => some rest
    | _ => none

/-- Unsigned part of group 1, `\d+\.?\d*` immediately followed by `,`:
returns the captured characters and the rest after the comma. -/
def numCommaCore (cs : List Char) : Option (List Char × List Char) :=
  if (cs.takeWhile Char.isDigit).isEmpty then none
  else
    match cs.dropWhile Char.isDigit with
    | ',' :: rest => some (cs.takeWhile Char.isDigit, rest)
    | '.' :: r2 =>
      (match r2.dropWhile Char.isDigit with
       | ',' :: rest => some (cs.takeWhile Char.isDigit ++ '.' :: r2.takeWhile Char.isDigit, rest)
       | _ => none)
    | _ => none

/-- Group 1, `([-]?\d+\.?\d*)` followed by `,`. -/
def numGroupComma (cs : List Char) : Option (List Char × List Char) :=
  match cs with
  | '-' :: r => (numCommaCore r).map fun p => ('-' :: p.1, p.2)
  | _ => numCommaCore cs

/-- Unsigned part of group 2, `\d+\.?\d*` at the end of the pattern:
maximal digit run, then optionally `.` and the maximal following digit
run. -/
def numEndCore (cs : List Char) : Option (List Char) :=
  if (cs.takeWhile Char.isDigit).isEmpty then none
  else
    match cs.dropWhile Char.isDigit with
    | '.' :: r2 => some (cs.takeWhile Char.isDigit ++ '.' :: r2.takeWhile Char.isDigit)
    | _ => some (cs.takeWhile Char.isDigit)

/-- Group 2, `([-]?\d+\.?\d*)` at the end of the pattern. -/
def numGroupEnd (cs : List Char) : Option (List Char) :=
  match cs with
  | '-' :: r => (numEndCore r).map fun g => '-' :: g
  | _ => numEndCore cs

/-- Match of the coordinate pattern anchored at the head of `cs`; returns
`(group 1, group 2)` as strings. -/
def coordMatchAt (cs : List Char) : Option (String × String) :=
  (field cs).bind fun r1 =>
  (field r1).bind fun r2 =>
  (field r2).bind fun r3 =>
  (numGroupComma r3).bind fun p =>
  (numGroupEnd p.2).map fun g2 => (p.1.asString, g2.asString)

/-- `re.search` of the coordinate pattern: leftmost start position wins. -/
def coordSearch : List Char → Option (String × String)
  | [] => none
  | c :: rest =>
    match coordMatchAt (c :: rest) with
    | some g => some g
    | none => coordSearch rest

/-! ### The title patterns

`my_agent.py` lines 61–70: an ordered list of six patterns, each tried with
`re.search(pattern, last_line, re.IGNORECASE)`; the first match wins and
its group 1 is the extracted title.
-/

/-- The separator class `[:\s]` of the labeled patterns. -/
def labelSep (c : Char) : Bool :=
  c == ':' || pySpace c

/-- The capture class `[^\n\r,]` of the labeled patterns. -/
def titleChar (c : Char) : Bool :=
  !(c == '\n' || c == '\r' || c == ',')

/-- Case-insensitive literal prefix match (ASCII lowercasing, exact for the
label `"title"`; the Japanese labels have no case). -/
def stripLabelCI : List Char → List Char → Option (List Char)
  | [], cs => some cs
  | l :: ls, c :: cs => if l.toLower == c.toLower then stripLabelCI ls cs else none
  | _ :: _, [] => none

/-- Backtracking tail of a labeled pattern `LABEL[:\s]+([^\n\r,]+)` when the
capture cannot start right after the maximal separator run `w`: Python
shortens `[:\s]+` from the right, so the capture becomes the single
separator character at the largest position `k ∈ [1, |w|-1]` that lies in
`[^\n\r,]` (all separator characters after it are `\n` or `\r`, so the
greedy capture stops immediately). -/
def labelBacktrack (w : List Char) : Option (List Char) :=
  match ((w.drop 1).filter titleChar).getLast? with
  | some c => some [c]
  | none => none

/-- Match of `LABEL[:\s]+([^\n\r,]+)` anchored at the head of `cs`
(backtracking semantics as in `labelBacktrack`); returns group 1. -/
def labeledAt (label : List Char) (cs : List Char) : Option (List Char) :=
  (stripLabelCI label cs).bind fun l =>
    if (l.takeWhile labelSep).isEmpty then none
    else
      match l.dropWhile labelSep with
      | c :: r =>
        if titleChar c then some ((c :: r).takeWhile titleChar)
        else labelBacktrack (l.takeWhile labelSep)
      | [] => labelBacktrack (l.takeWhile labelSep)

/-- `re.search` of a labeled pattern: leftmost start position wins. -/
def labeledSearch (label : List Char) : List Char → Option (List Char)
  | [] => none
  | c :: rest =>
    match labeledAt label (c :: rest) with
    | some g => some g
    | none => labeledSearch label rest

/-- `$` of the `re` module (no `MULTILINE`): end of input, or just before a
newline that is the last character. -/
def dollarEnd (cs : List Char) : Bool :=
  cs == [] || cs == ['\n']

/-- Case split helper: does `cs` start with the literal `pre`, returning the
rest? -/
def stripLit : List Char → List Char → Option (List Char)
  | [], cs => some cs
  | l :: ls, c :: cs => if l == c then stripLit ls cs else none
  | _ :: _, [] => none

/-- The suffix `での(交通事故|交通障害事故|夜間事故)$` of title pattern 5,
anchored at the head of `cs`.  The three alternatives diverge at their
third character, so the alternation order is immaterial. -/
def incidentSuffix (cs : List Char) : Bool :=
  match stripLit "での".data cs with
  | none => false
  | some r =>
    (match stripLit "交通事故".data r with
     | some r2 => dollarEnd r2
     | none => false) ||
    (match stripLit "交通障害事故".data r with
     | some r2 => dollarEnd r2
     | none => false) ||
    (match stripLit "夜間事故".data r with
     | some r2 => dollarEnd r2
     | none => false)

/-- Match of `(.+?)での(交通事故|交通障害事故|夜間事故)$` anchored at the
head of `cs`: the lazy group consumes the shortest nonempty run of
non-newline characters after which the suffix matches; returns group 1. -/
def p5At : List Char → Option (List Char)
  | [] => none
  | c :: rest =>
    if c == '\n' then none
    else if incidentSuffix rest then some [c]
    else (p5At rest).map fun g => c :: g

/-- `re.search` of title pattern 5: leftmost start position wins (so the
lazy group captures everything before the first viable `での`). -/
def p5Search : List Char → Option (List Char)
  | [] => none
  | c :: rest =>
    match p5At (c :: rest) with
    | some g => some g
    | none => p5Search rest

/-- `re.search(r'^(.+?)$', line)`: anchored at the start; the lazy group
consumes the shortest nonempty run of non-newline characters after which
`$` matches.  On a line without newlines this captures the whole nonempty
line. -/
def p6Match : List Char → Option (List Char)
  | [] => none
  | c :: rest =>
    if c == '\n' then none
    else if dollarEnd rest then some [c]
    else (p6Match rest).map fun g => c :: g

/-- The ordered title pattern list of `my_agent.py` lines 61–70. -/
def titlePatterns : List (List Char → Option (List Char)) :=
  [labeledSearch "title".data,
   labeledSearch "タイトル".data,
   labeledSearch "件名".data,
   labeledSearch "事故名".data,
   p5Search,
   p6Match]

/-- First matching pattern wins (the `for pattern in title_patterns` loop
with `break`). -/
def firstPatternMatch (line : List Char) : Option (List Char) :=
  titlePatterns.findSome? fun p => p line

/-! ### extract_structured_data_from_text (lines 49–105) -/

/-- The dictionary built by `extract_structured_data_from_text`.
`other_fields` only ever receives the key `"note"`, so it is modelled by
the optional `note` field. -/
structure ExtractedData where
  title : Option String
  longitude : Option ℚ
  latitude : Option ℚ
  note : Option String
deriving DecidableEq

/-- The `try` block around the two `float` conversions (lines 77–81):
`latitude` is assigned first, so a `ValueError` on group 2 would leave
`latitude` set and `longitude` unset; a `ValueError` on group 1 leaves
both unset.  (The theorems show neither failure is reachable.)  Returns
`(latitude, longitude)`. -/
def extractLatLng : Option (String × String) → Option ℚ × Option ℚ
  | none => (none, none)
  | some (g1, g2) =>
    match pyFloat g1 with
    | none => (none, none)
    | some a => (some a, pyFloat g2)

/-- Python truthiness of the optional float fields (`None` and `0.0` are
falsy). -/
def truthyQ : Option ℚ → Bool
  | none => false
  | some q => q != 0

/-- Python truthiness of the optional string fields (`None` and `""` are
falsy). -/
def truthyS : Option String → Bool
  | none => false
  | some s => s != ""

/-- The last element of `text.strip().split('\n')` (always defined: `split`
returns at least one element, so the `if lines:` guard always passes). -/
def lastLine (cs : List Char) : List Char :=
  (cs.reverse.takeWhile (fun c => !(c == '\n'))).reverse

/-- The diagnostic note recorded when a title is extracted without valid
coordinates (line 99). -/
def noteText (t : String) : String :=
  "タイトルが抽出されましたが、位置情報がありません: " ++ t

/-- Assembly of the extraction dictionary from the coordinate pair and the
result of the title loop (lines 84–100): `match.group(1).strip()` becomes
the title when both coordinates are truthy, and otherwise only the
diagnostic note is recorded. -/
def mkExtracted (lat lng : Option ℚ) : Option (List Char) → ExtractedData
  | none => ⟨none, lng, lat, none⟩
  | some g =>
    if truthyQ lat && truthyQ lng then
      ⟨some ((stripWs g).asString), lng, lat, none⟩
    else
      ⟨none, lng, lat, some (noteText ((stripWs g).asString))⟩

/-- `extract_structured_data_from_text` (lines 49–105).  The body of the
Python function cannot raise (every fallible step is guarded), so the
outer `try`/`except` is not represented; the function is total. -/
def extract_structured_data_from_text (text_content : String) : ExtractedData :=
  mkExtracted (extractLatLng (coordSearch text_content.data)).1
    (extractLatLng (coordSearch text_content.data)).2
    (firstPatternMatch (lastLine (stripWs text_content.data)))

/-! ### enhanced_knowledge_base_query (lines 106–196) -/

/-- One element of `response['retrievalResults']`, already projected the
way the source projects it: `content` is
`result.get('content', {}).get('text', '')`, `score` is
`result.get('score', 0)`, `source` is
`result.get('location', {}).get('s3Location', {}).get('uri', 'Unknown')`
(the `.get` defaults are folded into the supplied values). -/
structure RetrievedResult where
  content : String
  score : ℚ
  source : String
deriving DecidableEq

/-- Outcome of the external `bedrock_agent.retrieve` call: success with a
result list, a `ClientError` with its error code and message, or any
other exception with its message. -/
inductive RetrieveOutcome where
  | ok (results : List RetrievedResult)
  | clientError (code : String) (message : String)
  | exn (message : String)

/-- A structured result: the extraction dictionary augmented with
`score`, `source` and `result_index` (lines 147–150). -/
structure StructuredResult where
  title : Option String
  longitude : Option ℚ
  latitude : Option ℚ
  note : Option String
  score : ℚ
  source : String
  result_index : Nat
deriving DecidableEq

/-- One element of `raw_results` (lines 155–160). -/
structure RawResult where
  index : Nat
  score : ℚ
  content : String
  source : String
deriving DecidableEq

/-- The envelope returned by `enhanced_knowledge_base_query`; the `error`
key is present exactly on the failure paths. -/
structure QueryResults where
  message : String
  structured_data : List StructuredResult
  raw_results : List RawResult
  error : Option String
deriving DecidableEq

/-- `enumerate(results, 1)`. -/
def enumFromN (n : Nat) : List α → List (Nat × α)
  | [] => []
  | a :: l => (n, a) :: enumFromN (n + 1) l

/-- Content preview truncation (line 158). -/
def truncateContent (content : String) : String :=
  if content.length > 500 then content.take 500 ++ "..." else content

/-- The `error_responses` mapping with its generic fallback (lines
176–183). -/
def errorResponseMessage (code message : String) : String :=
  if code = "ValidationException" then "ナレッジベースの設定に問題があります。"
  else if code = "ResourceNotFoundException" then "指定されたナレッジベースまたはデータソースが見つかりません。"
  else if code = "AccessDeniedException" then "ナレッジベースへのアクセス権限がありません。"
  else "ナレッジベースクエリエラー: " ++ message

/-- The query augmentation of line 113 (sent to the external backend). -/
def enhancedQuery (query_text : String) : String :=
  query_text ++ " 東京都 事故 位置情報"

/-- `enhanced_knowledge_base_query` (lines 106–196), as a function of the
outcome of the external retrieval call. -/
def enhanced_knowledge_base_query (outcome : RetrieveOutcome) : QueryResults :=
  match outcome with
  | .ok results =>
    if results.isEmpty then
      ⟨"検索結果が見つかりませんでした。", [], [], none⟩
    else
      ⟨toString results.length ++ "件の事故データが見つかりました。",
       (enumFromN 1 results).map fun p =>
         let d := extract_structured_data_from_text p.2.content
         ⟨d.title, d.longitude, d.latitude, d.note, p.2.score, p.2.source, p.1⟩,
       (enumFromN 1 results).map fun p =>
         ⟨p.1, p.2.score, truncateContent p.2.content, p.2.source⟩,
       none⟩
  | .clientError code message =>
    ⟨errorResponseMessage code message, [], [], some code⟩
  | .exn message =>
    ⟨"システムエラーが発生しました: " ++ message, [], [], some "SystemError"⟩

/-! ### generate_enhanced_response (lines 198–275) -/

/-- `any(result.get("title") or result.get("longitude") or
result.get("latitude") for result in ...)` (lines 202–205). -/
def hasStructuredData (qr : QueryResults) : Bool :=
  qr.structured_data.any fun r => truthyS r.title || truthyQ r.longitude || truthyQ r.latitude

/-- One entry of the `location_data` list (lines 208–216).  The source
reads `result.get("title", "不明")`, but the `"title"` key is always
present (possibly `None`), so the `"不明"` default is never produced and
the field keeps the optional title. -/
structure LocationEntry where
  title : Option String
  longitude : ℚ
  latitude : ℚ
  score : ℚ
deriving DecidableEq

/-- The per-result test and reshaping of lines 210–216: an entry is kept
only when both coordinates are truthy (present and nonzero). -/
def locEntry (r : StructuredResult) : Option LocationEntry :=
  if truthyQ r.longitude && truthyQ r.latitude then
    some ⟨r.title, r.longitude.getD 0, r.latitude.getD 0, r.score⟩
  else none

/-- The `location_data` list of lines 208–216. -/
def location_data (qr : QueryResults) : List LocationEntry :=
  qr.structured_data.filterMap locEntry

/-- Number of times `p` divides `n` (fuel-based, total). -/
def multAux (p : Nat) : Nat → Nat → Nat
  | 0, _ => 0
  | fuel + 1, n =>
    if 2 ≤ p && n % p == 0 && n != 0 then multAux p fuel (n / p) + 1 else 0

/-- Number of times `p` divides `n`. -/
def factorOut (p n : Nat) : Nat := multAux p n n

/-- Drop trailing `'0'` characters. -/
def dropTrailingZeros (cs : List Char) : List Char :=
  (cs.reverse.dropWhile (fun c => c == '0')).reverse

/-- Left-pad a digit string with zeros to width `k`. -/
def padZeros (cs : List Char) (k : Nat) : List Char :=
  List.replicate (k - cs.length) '0' ++ cs

/-- Fraction digits of `f` rendered `k` wide with trailing zeros removed,
or `"0"` when nothing remains. -/
def fracDigits (f k : Nat) : String :=
  if k = 0 then "0"
  else
    match dropTrailingZeros (padZeros (toString f).data k) with
    | [] => "0"
    | cs => cs.asString

/-- Decimal rendering of a nonnegative rational with a terminating decimal
expansion, as Python `repr` renders the corresponding float (shortest
digits, at least one fractional digit).  Nonterminating rationals cannot
arise from the decimal data of this program; they render as a fraction. -/
def renderQAbs (q : ℚ) : String :=
  if q.den = 2 ^ factorOut 2 q.den * 5 ^ factorOut 5 q.den then
    toString (q.num.natAbs * 10 ^ max (factorOut 2 q.den) (factorOut 5 q.den) / q.den /
      10 ^ max (factorOut 2 q.den) (factorOut 5 q.den)) ++ "." ++
    fracDigits (q.num.natAbs * 10 ^ max (factorOut 2 q.den) (factorOut 5 q.den) / q.den %
      10 ^ max (factorOut 2 q.den) (factorOut 5 q.den))
      (max (factorOut 2 q.den) (factorOut 5 q.den))
  else toString q.num ++ "/" ++ toString q.den

/-- f-string rendering of a float-valued field, models Python
`f"{x}"`. -/
def renderQ (q : ℚ) : String :=
  if q < 0 then "-" ++ renderQAbs (-q) else renderQAbs q

/-- f-string rendering of an optional float field that the source indexes
directly (always guarded truthy, so the `none` branch is unreachable and
mirrors Python printing `None`). -/
def renderQOpt : Option ℚ → String
  | some q => renderQ q
  | none => "None"

/-- Nearest integer, ties to even. -/
def roundHalfEven (q : ℚ) : ℤ :=
  if q - Rat.floor q < 1 / 2 then Rat.floor q
  else if q - Rat.floor q > 1 / 2 then Rat.floor q + 1
  else if Rat.floor q % 2 = 0 then Rat.floor q else Rat.floor q + 1

/-- Python `f"{x:.2f}"` on a nonnegative rational score. -/
def formatScore2Abs (q : ℚ) : String :=
  toString ((roundHalfEven (q * 100)).toNat / 100) ++ "." ++
  (if (roundHalfEven (q * 100)).toNat % 100 < 10 then "0" else "") ++
  toString ((roundHalfEven (q * 100)).toNat % 100)

/-- Python `f"{x:.2f}"` (scores are modelled as exact rationals; rounding
is decimal half-even on the rational). -/
def formatScore2 (q : ℚ) : String :=
  if q < 0 then "-" ++ formatScore2Abs (-q) else formatScore2Abs q

/-- One iteration of the fallback loop (lines 268–273): title line when the
title is truthy, position line when both coordinates are truthy, and the
relevance-score line. -/
def fallbackEntry (i : Nat) (d : StructuredResult) : String :=
  (if truthyS d.title then toString i ++ ". タイトル: " ++ d.title.getD "" ++ "\n" else "") ++
  (if truthyQ d.longitude && truthyQ d.latitude then
    "   位置: 経度 " ++ renderQOpt d.longitude ++ ", 緯度 " ++ renderQOpt d.latitude ++ "\n"
   else "") ++
  "   関連度: " ++ formatScore2 d.score ++ "\n\n"

/-- The deterministic fallback text of lines 262–275: the envelope message,
then, when structured data exists, a header and the first three entries. -/
def fallback_response (qr : QueryResults) : String :=
  qr.message ++ "\n\n" ++
  (if qr.structured_data.isEmpty then ""
   else "検出された構造化データ:\n" ++
     String.join ((enumFromN 1 (qr.structured_data.take 3)).map fun p => fallbackEntry p.1 p.2))

/-- `generate_enhanced_response` (lines 198–275), as a function of the
outcome of the external `bedrock_runtime.invoke_model` call plus response
parsing: `some text` is a successful generation, `none` is any exception
in the `try` block, answered by the local fallback.  The prompt built in
the `try` block (from the query, the envelope and `location_data`) only
feeds the external model and is subsumed by the outcome parameter. -/
def generate_enhanced_response (gen : Option String) (user_query : String)
    (query_results : QueryResults) : String :=
  match gen with
  | some text => text
  | none => fallback_response query_results

/-! ### invoke (lines 277–349) -/

/-- The configured knowledge-base id (line 12; the environment override is
read once at process start, with this repository default). -/
def KNOWLEDGE_BASE_ID : String := "O8YQYDMUQB"

/-- Outcome of `create_bedrock_clients` (lines 18–47): success, or an
exception re-raised to the entrypoint's outer handler. -/
inductive ClientsOutcome where
  | ok
  | exn (message : String)

/-- The entrypoint payload: `payload.get("prompt", "")` and
`payload.get("format", "enhanced")`, with `none` for an absent key. -/
structure Payload where
  prompt : Option String
  format : Option String

/-- The response dictionary of `invoke`; keys absent from a branch are
`none`. -/
structure InvokeResponse where
  result : String
  status : String
  error : Option String
  knowledge_base_id : Option String
  structured_data : Option (List StructuredResult)
  raw_results : Option (List RawResult)
  count : Option Nat
deriving DecidableEq

/-- The part of `invoke` after client construction succeeded (lines
296–339): query, error short-circuit, and the format branch. -/
def invoke_after_clients (retrieval : RetrieveOutcome) (gen : Option String)
    (payload : Payload) : InvokeResponse :=
  match (enhanced_knowledge_base_query retrieval).error with
  | some e =>
    ⟨(enhanced_knowledge_base_query retrieval).message, "error", some e,
     some KNOWLEDGE_BASE_ID, none, none, none⟩
  | none =>
    if payload.format.getD "enhanced" = "simple" then
      ⟨(enhanced_knowledge_base_query retrieval).message, "success", none,
       some KNOWLEDGE_BASE_ID,
       some (enhanced_knowledge_base_query retrieval).structured_data, none,
       some (enhanced_knowledge_base_query retrieval).structured_data.length⟩
    else
      ⟨generate_enhanced_response gen (pyStripS (payload.prompt.getD ""))
         (enhanced_knowledge_base_query retrieval),
       "success", none, some KNOWLEDGE_BASE_ID,
       some (enhanced_knowledge_base_query retrieval).structured_data,
       some (enhanced_knowledge_base_query retrieval).raw_results,
       some (enhanced_knowledge_base_query retrieval).structured_data.length⟩

/-- `invoke` (lines 277–349), as a function of the outcomes of the client
construction, the retrieval call and the generation call.  Apart from
`create_bedrock_clients`, no statement in the `try` body can raise (both
helpers catch all their exceptions), so the outer `except` is reachable
only through the client-construction outcome. -/
def invoke (clients : ClientsOutcome) (retrieval : RetrieveOutcome)
    (gen : Option String) (payload : Payload) : InvokeResponse :=
  if pyStripS (payload.prompt.getD "") = "" then
    ⟨"質問を入力してください。", "error", none, none, none, none, none⟩
  else
    match clients with
    | .exn m =>
      ⟨"システム処理中にエラーが発生しました。しばらく時間をおいてから再度お試しください。",
       "system_error", some ("アプリケーションエラー: " ++ m), none, none, none, none⟩
    | .ok => invoke_after_clients retrieval gen payload

/-- Python `text.split(',')` (used only to state claims about
comma-separated fields). -/
def pySplitComma : List Char → List (List Char)
  | [] => [[]]
  | c :: rest =>
    if c == ',' then [] :: pySplitComma rest
    else
      match pySplitComma rest with
      | h :: t => (c :: h) :: t
      | [] => [[c]]

/-- The shape of every string captured by `[-]?\d+\.?\d*` after the
optional sign: a nonempty digit run, optionally followed by a dot and a
digit run. -/
def NumShape (g : List Char) : Prop :=
  ∃ d1 d2 : List Char,
    (∀ c ∈ d1, c.isDigit = true) ∧ (∀ c ∈ d2, c.isDigit = true) ∧ d1 ≠ [] ∧
      (g = d1 ∨ g = d1 ++ '.' :: d2)

/-- The record of the specification scenario shared by C1 (text of one
retrieved passage). -/
def sampleText : String :=
  "2022/12/2 4:00,晴れ,西東京市柳沢1-10,35.726,139.55391,西東京市での交通事故"

/-- What the suffix pattern actually captures on `sampleText`: everything
before the unique `での`. -/
def sampleTitle : String :=
  "2022/12/2 4:00,晴れ,西東京市柳沢1-10,35.726,139.55391,西東京市"

/-- A structured result with a zero latitude, used to instantiate the
zero-coordinate policy. -/
def zeroLatResult : StructuredResult :=
  ⟨none, some 1, some 0, none, 1, "s", 1⟩

/-! ## Helper lemmas -/

theorem pySpace_eq_false_of_isDigit {c : Char} (h : c.isDigit = true) : pySpace c = false := by
  rcases hc : pySpace c with _ | _
  · rfl
  · exfalso
    have hmem : c = ' ' ∨ c = '\t' ∨ c = '\n' ∨ c = '\r' ∨ c = '\x0b' ∨ c = '\x0c' := by
      simpa [pySpace, or_assoc] using hc
    rcases hmem with h1 | h1 | h1 | h1 | h1 | h1 <;> subst h1 <;> exact absurd h (by decide)

theorem ne_of_isDigit {c d : Char} (h : c.isDigit = true) (hd : d.isDigit = false) : c ≠ d := by
  intro he
  rw [he] at h
  rw [h] at hd
  cases hd

theorem stripWs_eq_self {cs : List Char} (h : ∀ c ∈ cs, pySpace c = false) : stripWs cs = cs := by
  have h1 : cs.dropWhile pySpace = cs := by
    cases cs with
    | nil => rfl
    | cons a l =>
      rw [List.dropWhile_cons]
      simp [h a (List.mem_cons_self a l)]
  unfold stripWs
  rw [h1]
  have h2 : cs.reverse.dropWhile pySpace = cs.reverse := by
    cases hr : cs.reverse with
    | nil => rfl
    | cons a l =>
      have ha : a ∈ cs := by
        rw [← List.mem_reverse, hr]
        exact List.mem_cons_self a l
      rw [List.dropWhile_cons]
      simp [h a ha]
  rw [h2, List.reverse_reverse]

theorem stripWs_nil_of_space {cs : List Char} (h : ∀ c ∈ cs, pySpace c = true) :
    stripWs cs = [] := by
  unfold stripWs
  rw [List.dropWhile_eq_nil_iff.mpr fun x hx => h x hx]
  simp

theorem numEndCore_shape {cs g : List Char} (h : numEndCore cs = some g) : NumShape g := by
  unfold numEndCore at h
  split at h
  · cases h
  · rename_i hne
    have hd1 : ∀ c ∈ cs.takeWhile Char.isDigit, c.isDigit = true :=
      fun c hc => List.mem_takeWhile_imp hc
    have hne' : cs.takeWhile Char.isDigit ≠ [] := by
      simpa [List.isEmpty_iff] using hne
    split at h
    · rename_i r2 _
      injection h with h
      exact ⟨cs.takeWhile Char.isDigit, r2.takeWhile Char.isDigit, hd1,
        fun c hc => List.mem_takeWhile_imp hc, hne', Or.inr h.symm⟩
    · injection h with h
      exact ⟨cs.takeWhile Char.isDigit, [], hd1, by simp, hne', Or.inl h.symm⟩

theorem numCommaCore_shape {cs g rest : List Char} (h : numCommaCore cs = some (g, rest)) :
    NumShape g := by
  unfold numCommaCore at h
  split at h
  · cases h
  · rename_i hne
    have hd1 : ∀ c ∈ cs.takeWhile Char.isDigit, c.isDigit = true :=
      fun c hc => List.mem_takeWhile_imp hc
    have hne' : cs.takeWhile Char.isDigit ≠ [] := by
      simpa [List.isEmpty_iff] using hne
    split at h
    · injection h with h
      exact ⟨cs.takeWhile Char.isDigit, [], hd1, by simp, hne',
        Or.inl (congrArg Prod.fst h).symm⟩
    · rename_i r2 _
      split at h
      · injection h with h
        exact ⟨cs.takeWhile Char.isDigit, r2.takeWhile Char.isDigit, hd1,
          fun c hc => List.mem_takeWhile_imp hc, hne',
          Or.inr (congrArg Prod.fst h).symm⟩
      · cases h
    · cases h

theorem pyExpPart_nil : pyExpPart [] = some 0 := rfl

theorem pyFloatMag_isSome_of_shape {g : List Char} (h : NumShape g) :
    (pyFloatMag g).isSome = true := by
  obtain ⟨d1, d2, hd1, hd2, hne, hor⟩ := h
  have hd1' : ∀ c ∈ d1, Char.isDigit c := fun c hc => hd1 c hc
  have hd2' : ∀ c ∈ d2, Char.isDigit c := fun c hc => hd2 c hc
  have ht1 : d1.takeWhile Char.isDigit = d1 := List.takeWhile_eq_self_iff.mpr hd1'
  have hw1 : d1.dropWhile Char.isDigit = [] := List.dropWhile_eq_nil_iff.mpr hd1'
  have hE : ¬(d1.isEmpty = true) := by simpa [List.isEmpty_iff] using hne
  rcases hor with hg | hg <;> subst hg
  · unfold pyFloatMag
    rw [hw1, ht1]
    simp only [List.isEmpty_iff]
    rw [if_neg hne]
    simp [pyExpPart]
  · have ht : (d1 ++ '.' :: d2).takeWhile Char.isDigit = d1 := by
      rw [List.takeWhile_append_of_pos hd1']
      simp [List.takeWhile_cons]
    have hw : (d1 ++ '.' :: d2).dropWhile Char.isDigit = '.' :: d2 := by
      rw [List.dropWhile_append_of_pos hd1']
      simp [List.dropWhile_cons]
    have ht2 : d2.takeWhile Char.isDigit = d2 := List.takeWhile_eq_self_iff.mpr hd2'
    have hw2 : d2.dropWhile Char.isDigit = [] := List.dropWhile_eq_nil_iff.mpr hd2'
    unfold pyFloatMag
    rw [hw]
    simp only [ht, ht2, hw2]
    rw [if_neg (by simp [List.isEmpty_iff, hne])]
    simp [pyExpPart]

theorem numShape_no_space {g : List Char} (h : NumShape g) : ∀ c ∈ g, pySpace c = false := by
  obtain ⟨d1, d2, hd1, hd2, _, hor⟩ := h
  rcases hor with hg | hg <;> subst hg
  · exact fun c hc => pySpace_eq_false_of_isDigit (hd1 c hc)
  · intro c hc
    rcases List.mem_append.mp hc with h1 | h2
    · exact pySpace_eq_false_of_isDigit (hd1 c h1)
    · rcases List.mem_cons.mp h2 with rfl | h3
      · decide
      · exact pySpace_eq_false_of_isDigit (hd2 c h3)

theorem numShape_head {g : List Char} (h : NumShape g) :
    ∃ c0 t, g = c0 :: t ∧ c0.isDigit = true := by
  obtain ⟨d1, d2, hd1, _, hne, hor⟩ := h
  cases d1 with
  | nil => exact absurd rfl hne
  | cons a l =>
    have ha : a.isDigit = true := hd1 a (List.mem_cons_self a l)
    rcases hor with hg | hg <;> subst hg
    · exact ⟨a, l, rfl, ha⟩
    · exact ⟨a, l ++ '.' :: d2, rfl, ha⟩

theorem pyFloat_isSome_of_shape {g : List Char} (h : NumShape g) :
    (pyFloat g.asString).isSome = true := by
  obtain ⟨c0, t, hg, hc0⟩ := numShape_head h
  have hstrip : stripWs (g.asString).data = c0 :: t := by
    have : (g.asString).data = g := rfl
    rw [this, stripWs_eq_self (numShape_no_space h), hg]
  unfold pyFloat
  rw [hstrip]
  have hm : (pyFloatMag (c0 :: t)).isSome = true := by
    rw [← hg]; exact pyFloatMag_isSome_of_shape h
  split
  · rename_i r heq
    exact absurd (List.cons.injEq .. ▸ heq) (by
      intro hpair
      exact ne_of_isDigit hc0 (by decide) hpair.1)
  · rename_i r heq
    exact absurd (List.cons.injEq .. ▸ heq) (by
      intro hpair
      exact ne_of_isDigit hc0 (by decide) hpair.1)
  · exact hm

theorem pyFloat_isSome_of_neg_shape {g : List Char} (h : NumShape g) :
    (pyFloat (('-' :: g).asString)).isSome = true := by
  have hstrip : stripWs (('-' :: g).asString).data = '-' :: g := by
    have : (('-' :: g).asString).data = '-' :: g := rfl
    rw [this]
    refine stripWs_eq_self ?_
    intro c hc
    rcases List.mem_cons.mp hc with rfl | h2
    · decide
    · exact numShape_no_space h c h2
  unfold pyFloat
  rw [hstrip]
  obtain ⟨c0, t, hg, hc0⟩ := numShape_head h
  have hm : (pyFloatMag g).isSome = true := pyFloatMag_isSome_of_shape h
  simpa using hm

theorem numGroupEnd_isSome {cs g : List Char} (h : numGroupEnd cs = some g) :
    (pyFloat g.asString).isSome = true := by
  unfold numGroupEnd at h
  split at h
  · rename_i r
    obtain ⟨g0, h0, hg⟩ := Option.map_eq_some'.mp h
    subst hg
    exact pyFloat_isSome_of_neg_shape (numEndCore_shape h0)
  · exact pyFloat_isSome_of_shape (numEndCore_shape h)

theorem numGroupComma_isSome {cs g rest : List Char} (h : numGroupComma cs = some (g, rest)) :
    (pyFloat g.asString).isSome = true := by
  unfold numGroupComma at h
  split at h
  · rename_i r
    obtain ⟨p0, h0, hg⟩ := Option.map_eq_some'.mp h
    have hg1 : g = '-' :: p0.1 := (congrArg Prod.fst hg).symm
    subst hg1
    exact pyFloat_isSome_of_neg_shape
      (numCommaCore_shape (show numCommaCore r = some (p0.1, p0.2) from h0))
  · exact pyFloat_isSome_of_shape (numCommaCore_shape h)

theorem coordMatchAt_groups {cs : List Char} {g1 g2 : String}
    (h : coordMatchAt cs = some (g1, g2)) :
    (pyFloat g1).isSome = true ∧ (pyFloat g2).isSome = true := by
  unfold coordMatchAt at h
  obtain ⟨r1, _, h⟩ := Option.bind_eq_some.mp h
  obtain ⟨r2, _, h⟩ := Option.bind_eq_some.mp h
  obtain ⟨r3, _, h⟩ := Option.bind_eq_some.mp h
  obtain ⟨p, hp, h⟩ := Option.bind_eq_some.mp h
  obtain ⟨gl2, hg2, hpair⟩ := Option.map_eq_some'.mp h
  have h1 : g1 = p.1.asString := (congrArg Prod.fst hpair).symm
  have h2 : g2 = gl2.asString := (congrArg Prod.snd hpair).symm
  subst h1; subst h2
  exact ⟨numGroupComma_isSome (show numGroupComma r3 = some (p.1, p.2) from hp),
    numGroupEnd_isSome hg2⟩

theorem coordSearch_groups {cs : List Char} {g1 g2 : String}
    (h : coordSearch cs = some (g1, g2)) :
    (pyFloat g1).isSome = true ∧ (pyFloat g2).isSome = true := by
  induction cs with
  | nil => cases h
  | cons c rest ih =>
    unfold coordSearch at h
    split at h
    · rename_i g hg
      cases h
      exact coordMatchAt_groups hg
    · exact ih h

theorem mkExtracted_latlng (lat lng : Option ℚ) (o : Option (List Char)) :
    (mkExtracted lat lng o).latitude = lat ∧ (mkExtracted lat lng o).longitude = lng := by
  cases o with
  | none => exact ⟨rfl, rfl⟩
  | some g =>
    simp only [mkExtracted]
    by_cases hc : (truthyQ lat && truthyQ lng) = true
    · rw [if_pos hc]
      exact ⟨rfl, rfl⟩
    · rw [if_neg hc]
      exact ⟨rfl, rfl⟩

theorem mkExtracted_not_truthy {lat lng : Option ℚ} {o : Option (List Char)}
    (h : (truthyQ lat && truthyQ lng) = false) :
    (mkExtracted lat lng o).title = none ∧
      (o.isSome = true → (mkExtracted lat lng o).note.isSome = true) := by
  cases o with
  | none => exact ⟨rfl, fun hh => absurd hh (by simp)⟩
  | some g =>
    simp only [mkExtracted]
    rw [h]
    exact ⟨by simp, fun _ => by simp⟩

theorem extract_latlng_eq (t : String) :
    (extract_structured_data_from_text t).latitude
        = (extractLatLng (coordSearch t.data)).1 ∧
      (extract_structured_data_from_text t).longitude
        = (extractLatLng (coordSearch t.data)).2 := by
  unfold extract_structured_data_from_text
  exact mkExtracted_latlng _ _ _

theorem field_none_of_no_comma {cs : List Char} (h : ∀ c ∈ cs, ¬(c = ',')) :
    field cs = none := by
  have hall : ∀ c ∈ cs, (fun c => !(c == ',')) c = true := by
    intro c hc
    simp [h c hc]
  have hd : cs.dropWhile (fun c => !(c == ',')) = [] := List.dropWhile_eq_nil_iff.mpr hall
  unfold field
  split
  · rfl
  · rw [hd]

theorem coordMatchAt_none_of_no_comma {cs : List Char} (h : ∀ c ∈ cs, ¬(c = ',')) :
    coordMatchAt cs = none := by
  unfold coordMatchAt
  rw [field_none_of_no_comma h]
  rfl

theorem coordSearch_none_of_no_comma {cs : List Char} (h : ∀ c ∈ cs, ¬(c = ',')) :
    coordSearch cs = none := by
  induction cs with
  | nil => rfl
  | cons c rest ih =>
    unfold coordSearch
    rw [coordMatchAt_none_of_no_comma h]
    exact ih fun c hc => h c (List.mem_cons_of_mem _ hc)

theorem ekbq_ok_error (results : List RetrievedResult) :
    (enhanced_knowledge_base_query (.ok results)).error = none := by
  cases results with
  | nil => rfl
  | cons r rs => rfl

theorem invoke_ok (retrieval : RetrieveOutcome) (gen : Option String) (payload : Payload)
    (h : ¬(pyStripS (payload.prompt.getD "") = "")) :
    invoke .ok retrieval gen payload = invoke_after_clients retrieval gen payload := by
  unfold invoke
  rw [if_neg h]

theorem invoke_after_clients_error {retrieval : RetrieveOutcome} {e : String}
    (he : (enhanced_knowledge_base_query retrieval).error = some e)
    (gen : Option String) (payload : Payload) :
    invoke_after_clients retrieval gen payload =
      ⟨(enhanced_knowledge_base_query retrieval).message, "error", some e,
       some KNOWLEDGE_BASE_ID, none, none, none⟩ := by
  unfold invoke_after_clients
  split
  · rename_i e' heq
    rw [he] at heq
    injection heq with heq
    rw [heq]
  · rename_i heq
    rw [he] at heq
    cases heq

theorem invoke_after_clients_enhanced {retrieval : RetrieveOutcome}
    (he : (enhanced_knowledge_base_query retrieval).error = none)
    (gen : Option String) {payload : Payload}
    (hf : ¬(payload.format.getD "enhanced" = "simple")) :
    invoke_after_clients retrieval gen payload =
      ⟨generate_enhanced_response gen (pyStripS (payload.prompt.getD ""))
         (enhanced_knowledge_base_query retrieval),
       "success", none, some KNOWLEDGE_BASE_ID,
       some (enhanced_knowledge_base_query retrieval).structured_data,
       some (enhanced_knowledge_base_query retrieval).raw_results,
       some (enhanced_knowledge_base_query retrieval).structured_data.length⟩ := by
  unfold invoke_after_clients
  split
  · rename_i e' heq
    rw [he] at heq
    cases heq
  · rw [if_neg hf]

theorem invoke_after_clients_status {retrieval : RetrieveOutcome}
    (he : (enhanced_knowledge_base_query retrieval).error = none)
    (gen : Option String) (payload : Payload) :
    (invoke_after_clients retrieval gen payload).status = "success" := by
  unfold invoke_after_clients
  split
  · rename_i e' heq
    rw [he] at heq
    cases heq
  · split <;> rfl

theorem take_three_isEmpty {l l' : List StructuredResult}
    (h : l'.take 3 = l.take 3) : l'.isEmpty = l.isEmpty := by
  cases l' <;> cases l <;> simp_all

theorem fallback_response_take3 {qr qr' : QueryResults}
    (hm : qr'.message = qr.message)
    (ht : qr'.structured_data.take 3 = qr.structured_data.take 3) :
    fallback_response qr' = fallback_response qr := by
  unfold fallback_response
  rw [hm, ht, take_three_isEmpty ht]

/-! ## Claims -/

set_option maxRecDepth 4000 in
/-- C1, counterexample to the claim as stated: on the scenario record the
coordinates are extracted as claimed, and the title is produced by the
suffix pattern, but its lazy group — searched with leftmost-start
semantics over the whole line — captures everything before `での`, so the
title is the entire record prefix and not `西東京市での交通事故`. -/
theorem claim_C1_counterexample :
    (extract_structured_data_from_text sampleText).latitude = some (mkRat 35726 1000) ∧
      (extract_structured_data_from_text sampleText).longitude = some (mkRat 13955391 100000) ∧
      (extract_structured_data_from_text sampleText).title = some sampleTitle ∧
      (extract_structured_data_from_text sampleText).title ≠ some "西東京市での交通事故" := by
  decide

set_option maxRecDepth 4000 in
/-- C1 (amended): on the scenario record, `extract_structured_data_from_text`
returns latitude 35.726 and longitude 139.55391, and the title is captured
via the suffix pattern `(.+?)での(交通事故|交通障害事故|夜間事故)$` — whose
lazy group, under leftmost search, captures the whole prefix
`2022/12/2 4:00,晴れ,西東京市柳沢1-10,35.726,139.55391,西東京市` — while
none of the four labeled patterns matches. -/
theorem claim_C1 :
    extract_structured_data_from_text sampleText =
        ⟨some sampleTitle, some (mkRat 13955391 100000), some (mkRat 35726 1000), none⟩ ∧
      labeledSearch "title".data (lastLine (stripWs sampleText.data)) = none ∧
      labeledSearch "タイトル".data (lastLine (stripWs sampleText.data)) = none ∧
      labeledSearch "件名".data (lastLine (stripWs sampleText.data)) = none ∧
      labeledSearch "事故名".data (lastLine (stripWs sampleText.data)) = none ∧
      p5Search (lastLine (stripWs sampleText.data)) = some sampleTitle.data := by
  decide

set_option maxRecDepth 4000 in
/-- C2, counterexample to the claim as stated: in
`a,b,c,1.5,2.5e3` the 4th and 5th comma-separated fields both parse as
Python floats (1.5 and 2500.0), the coordinate regex matches, yet
longitude is set to 2.5 — the float of the captured numeric prefix of the
5th field — and not to 2500.0. -/
theorem claim_C2_counterexample :
    pySplitComma ("a,b,c,1.5,2.5e3" : String).data =
        ["a".data, "b".data, "c".data, "1.5".data, "2.5e3".data] ∧
      pyFloat "1.5" = some (mkRat 3 2) ∧
      pyFloat "2.5e3" = some (mkRat 2500 1) ∧
      coordSearch ("a,b,c,1.5,2.5e3" : String).data = some ("1.5", "2.5") ∧
      (extract_structured_data_from_text "a,b,c,1.5,2.5e3").latitude = some (mkRat 3 2) ∧
      (extract_structured_data_from_text "a,b,c,1.5,2.5e3").longitude = some (mkRat 5 2) ∧
      mkRat 5 2 ≠ mkRat 2500 1 := by
  decide

/-- C2 (amended): whenever the coordinate regex matches, latitude and
longitude are set to the floats of the two captured groups (the full 4th
field of the matched record and the maximal numeric prefix of its 5th
field); both captures always parse as floats, so the pair is set exactly
when the regex matches and unset otherwise — the pair semantics is atomic
because the `except` branch guarding the conversions is unreachable. -/
theorem claim_C2 (text : String) :
    (∀ g1 g2 : String, coordSearch text.data = some (g1, g2) →
      (extract_structured_data_from_text text).latitude = pyFloat g1 ∧
        (extract_structured_data_from_text text).longitude = pyFloat g2 ∧
        (pyFloat g1).isSome = true ∧ (pyFloat g2).isSome = true) ∧
      (coordSearch text.data = none →
        (extract_structured_data_from_text text).latitude = none ∧
          (extract_structured_data_from_text text).longitude = none) ∧
      (extract_structured_data_from_text text).latitude.isSome =
        (extract_structured_data_from_text text).longitude.isSome := by
  obtain ⟨hlat, hlng⟩ := extract_latlng_eq text
  refine ⟨?_, ?_, ?_⟩
  · intro g1 g2 hs
    obtain ⟨h1, h2⟩ := coordSearch_groups hs
    obtain ⟨a, ha⟩ := Option.isSome_iff_exists.mp h1
    rw [hlat, hlng, hs]
    simp [extractLatLng, ha, h2]
  · intro hs
    rw [hlat, hlng, hs]
    exact ⟨rfl, rfl⟩
  · cases hs : coordSearch text.data with
    | none =>
      rw [hlat, hlng, hs]
      rfl
    | some p =>
      obtain ⟨g1, g2⟩ := p
      obtain ⟨h1, h2⟩ := coordSearch_groups hs
      obtain ⟨a, ha⟩ := Option.isSome_iff_exists.mp h1
      obtain ⟨b, hb⟩ := Option.isSome_iff_exists.mp h2
      rw [hlat, hlng, hs]
      simp [extractLatLng, ha, hb]

/-- C2, witness of the amended claim at a concrete input. -/
theorem claim_C2_witness :
    coordSearch ("a,b,c,1,2" : String).data = some ("1", "2") ∧
      (extract_structured_data_from_text "a,b,c,1,2").latitude = pyFloat "1" ∧
      (extract_structured_data_from_text "a,b,c,1,2").longitude = pyFloat "2" :=
  ⟨by decide, ((claim_C2 "a,b,c,1,2").1 "1" "2" (by decide)).1,
    ((claim_C2 "a,b,c,1,2").1 "1" "2" (by decide)).2.1⟩

/-- C3: when a title pattern matches the last line but no coordinate pair
was extracted, the title field stays `None` and the diagnostic note is
recorded in `other_fields` instead. -/
theorem claim_C3 (text : String)
    (h1 : coordSearch text.data = none)
    (h2 : (firstPatternMatch (lastLine (stripWs text.data))).isSome = true) :
    (extract_structured_data_from_text text).title = none ∧
      (extract_structured_data_from_text text).note.isSome = true := by
  unfold extract_structured_data_from_text
  rw [h1]
  have h := @mkExtracted_not_truthy (extractLatLng none).1 (extractLatLng none).2
    (firstPatternMatch (lastLine (stripWs text.data))) (by rfl)
  exact ⟨h.1, h.2 h2⟩

/-- C3, witness at a concrete input. -/
theorem claim_C3_witness :
    coordSearch ("hello" : String).data = none ∧
      (firstPatternMatch (lastLine (stripWs ("hello" : String).data))).isSome = true ∧
      (extract_structured_data_from_text "hello").title = none ∧
      (extract_structured_data_from_text "hello").note.isSome = true :=
  ⟨by decide, by decide, (claim_C3 "hello" (by decide) (by decide)).1,
    (claim_C3 "hello" (by decide) (by decide)).2⟩

/-- C4: a parsed coordinate equal to 0.0 is falsy in Python, so the title
policy treats the pair as absent (title suppressed, note recorded) even
though both numeric fields are set; likewise `generate_enhanced_response`
keeps no `location_data` entry for such a result and omits the position
line of the fallback text. -/
theorem claim_C4 :
    (∀ (text g1 g2 : String), coordSearch text.data = some (g1, g2) →
      (pyFloat g1 = some 0 ∨ pyFloat g2 = some 0) →
      (extract_structured_data_from_text text).title = none ∧
        (extract_structured_data_from_text text).latitude.isSome = true ∧
        (extract_structured_data_from_text text).longitude.isSome = true ∧
        ((firstPatternMatch (lastLine (stripWs text.data))).isSome = true →
          (extract_structured_data_from_text text).note.isSome = true)) ∧
      (∀ r : StructuredResult, r.latitude = some 0 ∨ r.longitude = some 0 →
        locEntry r = none) ∧
      (∀ (i : Nat) (r : StructuredResult), r.latitude = some 0 ∨ r.longitude = some 0 →
        fallbackEntry i r =
          (if truthyS r.title then toString i ++ ". タイトル: " ++ r.title.getD "" ++ "\n"
           else "") ++ ("   関連度: " ++ formatScore2 r.score ++ "\n\n")) := by
  refine ⟨?_, ?_, ?_⟩
  · intro text g1 g2 hs h0
    obtain ⟨h1, h2⟩ := coordSearch_groups hs
    have key : ∃ la lb : ℚ, extractLatLng (some (g1, g2)) = (some la, some lb) ∧
        (truthyQ (some la) && truthyQ (some lb)) = false := by
      rcases h0 with h0 | h0
      · obtain ⟨b, hb⟩ := Option.isSome_iff_exists.mp h2
        exact ⟨0, b, by simp [extractLatLng, h0, hb], by simp [truthyQ]⟩
      · obtain ⟨a, ha⟩ := Option.isSome_iff_exists.mp h1
        exact ⟨a, 0, by simp [extractLatLng, ha, h0], by simp [truthyQ]⟩
    obtain ⟨la, lb, hE, hcond⟩ := key
    unfold extract_structured_data_from_text
    rw [hs, hE]
    have hmk := @mkExtracted_not_truthy (some la) (some lb)
      (firstPatternMatch (lastLine (stripWs text.data))) hcond
    refine ⟨hmk.1, ?_, ?_, hmk.2⟩
    · rw [(mkExtracted_latlng (some la) (some lb) _).1]
      rfl
    · rw [(mkExtracted_latlng (some la) (some lb) _).2]
      rfl
  · intro r h0
    rcases h0 with h0 | h0 <;> simp [locEntry, h0, truthyQ]
  · intro i r h0
    rcases h0 with h0 | h0 <;>
      simp [fallbackEntry, h0, truthyQ, String.append_assoc]

/-- C4, witness at concrete inputs (a record whose latitude field is
`0.0`, and a structured result with a zero latitude). -/
theorem claim_C4_witness :
    coordSearch ("a,b,c,0.0,1.5" : String).data = some ("0.0", "1.5") ∧
      pyFloat "0.0" = some 0 ∧
      (extract_structured_data_from_text "a,b,c,0.0,1.5").title = none ∧
      (extract_structured_data_from_text "a,b,c,0.0,1.5").latitude.isSome = true ∧
      (extract_structured_data_from_text "a,b,c,0.0,1.5").longitude.isSome = true ∧
      locEntry zeroLatResult = none ∧
      fallbackEntry 1 zeroLatResult =
        (if truthyS zeroLatResult.title then
          toString 1 ++ ". タイトル: " ++ zeroLatResult.title.getD "" ++ "\n"
         else "") ++ ("   関連度: " ++ formatScore2 zeroLatResult.score ++ "\n\n") :=
  ⟨by decide, by decide,
    (claim_C4.1 "a,b,c,0.0,1.5" "0.0" "1.5" (by decide) (Or.inl (by decide))).1,
    (claim_C4.1 "a,b,c,0.0,1.5" "0.0" "1.5" (by decide) (Or.inl (by decide))).2.1,
    (claim_C4.1 "a,b,c,0.0,1.5" "0.0" "1.5" (by decide) (Or.inl (by decide))).2.2.1,
    claim_C4.2.1 zeroLatResult (Or.inl rfl),
    claim_C4.2.2 1 zeroLatResult (Or.inl rfl)⟩

/-- C5: an empty or whitespace-only prompt is rejected with the fixed
prompt-for-input error before any client is constructed or any backend
consulted — the response is the same for every client, retrieval and
generation outcome. -/
theorem claim_C5 (clients : ClientsOutcome) (retrieval : RetrieveOutcome)
    (gen : Option String) (payload : Payload)
    (h : pyStripS (payload.prompt.getD "") = "") :
    invoke clients retrieval gen payload =
      ⟨"質問を入力してください。", "error", none, none, none, none, none⟩ := by
  unfold invoke
  rw [if_pos h]

/-- C5, witness at a concrete whitespace-only payload. -/
theorem claim_C5_witness :
    pyStripS ((Payload.mk (some "   ") none).prompt.getD "") = "" ∧
      invoke .ok (.ok []) none (Payload.mk (some "   ") none) =
        ⟨"質問を入力してください。", "error", none, none, none, none, none⟩ :=
  ⟨by decide, claim_C5 .ok (.ok []) none (Payload.mk (some "   ") none) (by decide)⟩

/-- C6: an `AccessDeniedException` from the retrieval backend yields the
envelope with the fixed localized denial message, empty sequences and the
error code, and `invoke` short-circuits to an error response that does not
depend on the generation outcome — the generation backend is never
consulted. -/
theorem claim_C6 (m : String) (gen : Option String) (payload : Payload)
    (h : ¬(pyStripS (payload.prompt.getD "") = "")) :
    enhanced_knowledge_base_query (.clientError "AccessDeniedException" m) =
        ⟨"ナレッジベースへのアクセス権限がありません。", [], [],
         some "AccessDeniedException"⟩ ∧
      invoke .ok (.clientError "AccessDeniedException" m) gen payload =
        ⟨"ナレッジベースへのアクセス権限がありません。", "error",
         some "AccessDeniedException", some KNOWLEDGE_BASE_ID, none, none, none⟩ := by
  have henv : enhanced_knowledge_base_query (.clientError "AccessDeniedException" m) =
      ⟨"ナレッジベースへのアクセス権限がありません。", [], [],
       some "AccessDeniedException"⟩ := by
    with_unfolding_all rfl
  refine ⟨henv, ?_⟩
  rw [invoke_ok _ _ _ h,
    invoke_after_clients_error (by rw [henv]) gen payload, henv]

/-- C6, witness at a concrete payload and message. -/
theorem claim_C6_witness :
    ¬(pyStripS ((Payload.mk (some "q") none).prompt.getD "") = "") ∧
      invoke .ok (.clientError "AccessDeniedException" "denied") (some "ignored")
          (Payload.mk (some "q") none) =
        ⟨"ナレッジベースへのアクセス権限がありません。", "error",
         some "AccessDeniedException", some KNOWLEDGE_BASE_ID, none, none, none⟩ :=
  ⟨by decide,
    (claim_C6 "denied" (some "ignored") (Payload.mk (some "q") none) (by decide)).2⟩

/-- C7: when the generation backend raises, the enhanced path returns the
deterministic fallback text — the envelope message followed by at most the
first three structured entries — and the handler still reports status
`success`; the fallback depends on nothing of the envelope beyond its
message and the first three structured entries. -/
theorem claim_C7 (results : List RetrievedResult) (payload : Payload)
    (h : ¬(pyStripS (payload.prompt.getD "") = ""))
    (hf : ¬(payload.format.getD "enhanced" = "simple")) :
    invoke .ok (.ok results) none payload =
        ⟨fallback_response (enhanced_knowledge_base_query (.ok results)),
         "success", none, some KNOWLEDGE_BASE_ID,
         some (enhanced_knowledge_base_query (.ok results)).structured_data,
         some (enhanced_knowledge_base_query (.ok results)).raw_results,
         some (enhanced_knowledge_base_query (.ok results)).structured_data.length⟩ ∧
      (∀ qr : QueryResults,
        qr.message = (enhanced_knowledge_base_query (.ok results)).message →
        qr.structured_data.take 3 =
          (enhanced_knowledge_base_query (.ok results)).structured_data.take 3 →
        fallback_response qr =
          fallback_response (enhanced_knowledge_base_query (.ok results))) := by
  constructor
  · rw [invoke_ok _ _ _ h, invoke_after_clients_enhanced (ekbq_ok_error results) none hf]
    rfl
  · intro qr hm ht
    exact fallback_response_take3 hm ht

/-- C7, witness at a concrete payload. -/
theorem claim_C7_witness :
    invoke .ok (.ok []) none (Payload.mk (some "q") none) =
      ⟨fallback_response (enhanced_knowledge_base_query (.ok [])),
       "success", none, some KNOWLEDGE_BASE_ID,
       some (enhanced_knowledge_base_query (.ok [])).structured_data,
       some (enhanced_knowledge_base_query (.ok [])).raw_results,
       some (enhanced_knowledge_base_query (.ok [])).structured_data.length⟩ :=
  (claim_C7 [] (Payload.mk (some "q") none) (by decide) (by decide)).1

/-- C8: a successful retrieval with zero results yields the fixed
no-results message, empty sequences and no error field, and the handler
then reports status `success` rather than short-circuiting. -/
theorem claim_C8 :
    enhanced_knowledge_base_query (.ok []) =
        ⟨"検索結果が見つかりませんでした。", [], [], none⟩ ∧
      ∀ (gen : Option String) (payload : Payload),
        ¬(pyStripS (payload.prompt.getD "") = "") →
        (invoke .ok (.ok []) gen payload).status = "success" := by
  refine ⟨rfl, ?_⟩
  intro gen payload h
  rw [invoke_ok _ _ _ h]
  exact invoke_after_clients_status (ekbq_ok_error []) gen payload

/-- C8, witness at a concrete payload. -/
theorem claim_C8_witness :
    ¬(pyStripS ((Payload.mk (some "q") none).prompt.getD "") = "") ∧
      (invoke .ok (.ok []) none (Payload.mk (some "q") none)).status = "success" :=
  ⟨by decide, claim_C8.2 none (Payload.mk (some "q") none) (by decide)⟩

/-- C9: `extract_structured_data_from_text` is total (it is a Lean
function, so it never raises) and always yields the four-field structure;
on degenerate input — empty or whitespace-only text — every extraction
field is absent. -/
theorem claim_C9 :
    (∀ text : String, extract_structured_data_from_text text =
      ⟨(extract_structured_data_from_text text).title,
       (extract_structured_data_from_text text).longitude,
       (extract_structured_data_from_text text).latitude,
       (extract_structured_data_from_text text).note⟩) ∧
      ∀ text : String, (∀ c ∈ text.data, pySpace c = true) →
        extract_structured_data_from_text text = ⟨none, none, none, none⟩ := by
  refine ⟨fun text => rfl, ?_⟩
  intro text h
  have hnc : ∀ c ∈ text.data, ¬(c = ',') := by
    intro c hc he
    subst he
    exact absurd (h ',' hc) (by decide)
  have h1 : coordSearch text.data = none := coordSearch_none_of_no_comma hnc
  have h2 : stripWs text.data = [] := stripWs_nil_of_space h
  unfold extract_structured_data_from_text
  rw [h1, h2]
  rfl

/-- C9, witness at a concrete whitespace-only input. -/
theorem claim_C9_witness :
    (∀ c ∈ (" \n " : String).data, pySpace c = true) ∧
      extract_structured_data_from_text " \n " = ⟨none, none, none, none⟩ :=
  ⟨by decide, claim_C9.2 " \n " (by decide)⟩

/-- C10: every payload whose `format` is not exactly `"simple"` takes the
enhanced path: on a non-error envelope the response carries the generated
result, structured data, raw results, count, knowledge-base id, and
status `success`. -/
theorem claim_C10 (retrieval : RetrieveOutcome) (gen : Option String) (payload : Payload)
    (h : ¬(pyStripS (payload.prompt.getD "") = ""))
    (hf : ¬(payload.format.getD "enhanced" = "simple"))
    (he : (enhanced_knowledge_base_query retrieval).error = none) :
    invoke .ok retrieval gen payload =
      ⟨generate_enhanced_response gen (pyStripS (payload.prompt.getD ""))
         (enhanced_knowledge_base_query retrieval),
       "success", none, some KNOWLEDGE_BASE_ID,
       some (enhanced_knowledge_base_query retrieval).structured_data,
       some (enhanced_knowledge_base_query retrieval).raw_results,
       some (enhanced_knowledge_base_query retrieval).structured_data.length⟩ := by
  rw [invoke_ok _ _ _ h]
  exact invoke_after_clients_enhanced he gen hf

/-- C10, witness at a concrete payload with a non-simple format value. -/
theorem claim_C10_witness :
    invoke .ok (.ok []) (some "ans") (Payload.mk (some "q") (some "full")) =
      ⟨generate_enhanced_response (some "ans")
         (pyStripS ((Payload.mk (some "q") (some "full")).prompt.getD ""))
         (enhanced_knowledge_base_query (.ok [])),
       "success", none, some KNOWLEDGE_BASE_ID,
       some (enhanced_knowledge_base_query (.ok [])).structured_data,
       some (enhanced_knowledge_base_query (.ok [])).raw_results,
       some (enhanced_knowledge_base_query (.ok [])).structured_data.length⟩ :=
  claim_C10 (.ok []) (some "ans") (Payload.mk (some "q") (some "full"))
    (by decide) (by decide) rfl

end MyAgent
